import Mathlib

/-!
Shallow embedding of the CanvasLib repository (src/Canvas.js and the
unnamed module src/unnamed/part_000, two near-duplicate variants of the
same `Canvas` wrapper class around an HTML canvas 2D drawing context).

Coordinates are modelled as rationals (`ℚ`); every coordinate appearing in
the source is produced from caller-supplied numbers by additions of `0.5`,
`+ r`, `- r`, so rationals model the arithmetic exactly.  Arc angles in the
source are always rational multiples of `Math.PI` (`0`, `Math.PI * 0.5`,
`Math.PI`, `Math.PI * 1.5`, `Math.PI * 2`), so an arc records the two
multipliers of π as rationals.  Colors (strings, gradients or patterns,
treated opaquely by the wrapper) are modelled as strings; `null` arguments
become `Option.none`.

The drawing context is modelled by its wrapper-visible state: the sticky
fill/stroke styles (`none` until first assigned by the wrapper), the font
string (`none` until first assigned), text alignment, baseline, line width,
the current path being built, and a chronological trace of the primitive
drawing commands issued (`fillRect`, `strokeRect`, `fill`, `stroke`,
`fillText`, `strokeText`, `clearRect`), each recording the arguments and
the style in force when it was issued.
-/

namespace CanvasLib

/-- Colors (CSS strings, gradients, patterns) are opaque to the wrapper. -/
abbrev Color := String

/-- Which of the two near-duplicate source variants is running: the
`Canvas.js` file or the unnamed ES-module file `src/unnamed/part_000`.
The variants differ only in `refreshFont` (quoting of the family) and in
`clear`; `setSize` and `drawPolygon` exist only in the part_000 variant. -/
inductive Variant where
  | canvasJs
  | part000
deriving DecidableEq

/-- Path-building commands recorded on the context's current path.
`arc cx cy r aStartPi aEndPi` records `context.arc(cx, cy, r, aStartPi * π,
aEndPi * π)`: every angle in the source is a rational multiple of π, and
the two multipliers are stored. -/
inductive PathCmd where
  | moveTo (x y : ℚ)
  | lineTo (x y : ℚ)
  | arc (cx cy r aStartPi aEndPi : ℚ)
  | closePath
deriving DecidableEq

/-- Primitive drawing commands issued to the context, in order.  Path and
text commands record the fill/stroke style in force when they were issued
(`none` meaning the context's initial, never-assigned style). -/
inductive DrawOp where
  | fillRect (x y w h : ℚ) (style : Option Color)
  | strokeRect (x y w h : ℚ) (style : Option Color)
  | fillPath (path : List PathCmd) (style : Option Color)
  | strokePath (path : List PathCmd) (style : Option Color)
  | fillText (text : String) (x y : ℚ) (style : Option Color)
  | strokeText (text : String) (x y : ℚ) (style : Option Color)
  | clearRect (x y w h : ℚ)
deriving DecidableEq

/-- The 2D drawing context state visible through the wrapper. -/
structure Ctx where
  fillStyle : Option Color
  strokeStyle : Option Color
  font : Option String
  textAlign : String
  textBaseline : String
  lineWidth : ℚ
  path : List PathCmd
  trace : List DrawOp
deriving DecidableEq

/-- `context.fillStyle = color` -/
def Ctx.setFillStyle (c : Ctx) (color : Color) : Ctx :=
  { c with fillStyle := some color }

/-- `context.strokeStyle = color` -/
def Ctx.setStrokeStyle (c : Ctx) (color : Color) : Ctx :=
  { c with strokeStyle := some color }

/-- `context.beginPath()` -/
def Ctx.beginPath (c : Ctx) : Ctx :=
  { c with path := [] }

/-- `context.moveTo(x, y)` -/
def Ctx.moveTo (c : Ctx) (x y : ℚ) : Ctx :=
  { c with path := c.path ++ [PathCmd.moveTo x y] }

/-- `context.lineTo(x, y)` -/
def Ctx.lineTo (c : Ctx) (x y : ℚ) : Ctx :=
  { c with path := c.path ++ [PathCmd.lineTo x y] }

/-- `context.arc(cx, cy, r, aStartPi * π, aEndPi * π)` -/
def Ctx.arc (c : Ctx) (cx cy r aStartPi aEndPi : ℚ) : Ctx :=
  { c with path := c.path ++ [PathCmd.arc cx cy r aStartPi aEndPi] }

/-- `context.closePath()` -/
def Ctx.closePath (c : Ctx) : Ctx :=
  { c with path := c.path ++ [PathCmd.closePath] }

/-- `context.fill()`: fills the current path with the current fill style. -/
def Ctx.fill (c : Ctx) : Ctx :=
  { c with trace := c.trace ++ [DrawOp.fillPath c.path c.fillStyle] }

/-- `context.stroke()`: strokes the current path with the current stroke style. -/
def Ctx.stroke (c : Ctx) : Ctx :=
  { c with trace := c.trace ++ [DrawOp.strokePath c.path c.strokeStyle] }

/-- `context.fillRect(x, y, w, h)` -/
def Ctx.fillRect (c : Ctx) (x y w h : ℚ) : Ctx :=
  { c with trace := c.trace ++ [DrawOp.fillRect x y w h c.fillStyle] }

/-- `context.strokeRect(x, y, w, h)` -/
def Ctx.strokeRect (c : Ctx) (x y w h : ℚ) : Ctx :=
  { c with trace := c.trace ++ [DrawOp.strokeRect x y w h c.strokeStyle] }

/-- `context.fillText(text, x, y)` -/
def Ctx.fillText (c : Ctx) (text : String) (x y : ℚ) : Ctx :=
  { c with trace := c.trace ++ [DrawOp.fillText text x y c.fillStyle] }

/-- `context.strokeText(text, x, y)` -/
def Ctx.strokeText (c : Ctx) (text : String) (x y : ℚ) : Ctx :=
  { c with trace := c.trace ++ [DrawOp.strokeText text x y c.strokeStyle] }

/-- `context.clearRect(x, y, w, h)` -/
def Ctx.clearRect (c : Ctx) (x y w h : ℚ) : Ctx :=
  { c with trace := c.trace ++ [DrawOp.clearRect x y w h] }

/-- A path command reading an out-of-range array element receives JS
`undefined`, which coerces to `NaN`; the canvas context ignores path
commands with non-finite coordinates.  A missing coordinate is modelled as
`none` and the command is dropped. -/
def Ctx.moveToOpt (c : Ctx) (x y : Option ℚ) : Ctx :=
  match x, y with
  | some x, some y => c.moveTo x y
  | _, _ => c

/-- Like `Ctx.moveToOpt`, for `lineTo`. -/
def Ctx.lineToOpt (c : Ctx) (x y : Option ℚ) : Ctx :=
  match x, y with
  | some x, some y => c.lineTo x y
  | _, _ => c

/-- The wrapper state: the owned canvas element's dimensions, the wrapper's
own presentation fields, the owned drawing context, and which source
variant is running. -/
structure Canvas where
  width : ℚ
  height : ℚ
  usePositionFix : Bool
  fontDecorations : List String
  fontSize : String
  fontFamily : String
  variant : Variant
  ctx : Ctx
deriving DecidableEq

/-- The composed font string. Canvas.js:
`` `${decorations.join(' ')} ${size} "${family}"` ``; part_000:
`` `${decorations.join(' ')} ${size} ${family}` `` (no quotes). -/
def composeFontString (v : Variant) (decorations : List String)
    (size family : String) : String :=
  match v with
  | Variant.canvasJs =>
      String.intercalate " " decorations ++ " " ++ size ++ " \"" ++ family ++ "\""
  | Variant.part000 =>
      String.intercalate " " decorations ++ " " ++ size ++ " " ++ family

/-- `_refreshFont()` / `#refreshFont()`: writes the composed font string to
the context. -/
def Canvas.refreshFont (c : Canvas) : Canvas :=
  { c with ctx := { c.ctx with
      font := some (composeFontString c.variant c.fontDecorations c.fontSize c.fontFamily) } }

/-- The constructor: creates a canvas of the given size, takes
`options.usePositionFix` (default `true`; the option is `none` when the
`options` object lacks the key), sets `textAlign = 'left'`,
`textBaseline = 'top'`, and initializes the font fields.  The context's
styles and font are whatever the fresh context holds (modelled `none`:
never assigned by the wrapper); a fresh context has an empty path, no
issued commands, and line width 1. -/
def Canvas.create (width height : ℚ) (usePositionFixOpt : Option Bool)
    (variant : Variant) : Canvas :=
  { width := width
    height := height
    usePositionFix := usePositionFixOpt.getD true
    fontDecorations := []
    fontSize := "10px"
    fontFamily := "sans-serif"
    variant := variant
    ctx := { fillStyle := none, strokeStyle := none, font := none
             textAlign := "left", textBaseline := "top", lineWidth := 1
             path := [], trace := [] } }

/-- `setFontSize(size)` -/
def Canvas.setFontSize (c : Canvas) (size : ℚ) : Canvas :=
  ({ c with fontSize := toString size ++ "px" }).refreshFont

/-- `setFontFamily(fontFamily)` -/
def Canvas.setFontFamily (c : Canvas) (fontFamily : String) : Canvas :=
  ({ c with fontFamily := fontFamily }).refreshFont

/-- `setFontDecorations(decorations = [])`: stores a copy of the array. -/
def Canvas.setFontDecorations (c : Canvas) (decorations : List String) : Canvas :=
  ({ c with fontDecorations := decorations }).refreshFont

/-- `setFont(fontFamily = null, size = null, decorations = null)`: each
non-null argument updates its field; then the font is refreshed. -/
def Canvas.setFont (c : Canvas) (fontFamily : Option String) (size : Option ℚ)
    (decorations : Option (List String)) : Canvas :=
  let c := match fontFamily with
    | some f => { c with fontFamily := f }
    | none => c
  let c := match size with
    | some s => { c with fontSize := toString s ++ "px" }
    | none => c
  let c := match decorations with
    | some ds => { c with fontDecorations := ds }
    | none => c
  c.refreshFont

/-- `setTextAlign(align)` -/
def Canvas.setTextAlign (c : Canvas) (align : String) : Canvas :=
  { c with ctx := { c.ctx with textAlign := align } }

/-- `setTextBaseline(baseline)` -/
def Canvas.setTextBaseline (c : Canvas) (baseline : String) : Canvas :=
  { c with ctx := { c.ctx with textBaseline := baseline } }

/-- `setLineWidth(width)` -/
def Canvas.setLineWidth (c : Canvas) (width : ℚ) : Canvas :=
  { c with ctx := { c.ctx with lineWidth := width } }

/-- `setSize(width, height)` (part_000 variant only). -/
def Canvas.setSize (c : Canvas) (width height : ℚ) : Canvas :=
  { c with width := width, height := height }

/-- `drawLine(x1, y1, x2, y2, color = null)` -/
def Canvas.drawLine (c : Canvas) (x1 y1 x2 y2 : ℚ) (color : Option Color) : Canvas :=
  let (x1, y1, x2, y2) :=
    if c.usePositionFix then (x1 + 1/2, y1 + 1/2, x2 + 1/2, y2 + 1/2)
    else (x1, y1, x2, y2)
  let ctx := match color with
    | some col => c.ctx.setStrokeStyle col
    | none => c.ctx
  let ctx := ctx.beginPath
  let ctx := ctx.moveTo x1 y1
  let ctx := ctx.lineTo x2 y2
  { c with ctx := ctx.stroke }

/-- `drawRect(x, y, width, height, color = null, isFill = true)` -/
def Canvas.drawRect (c : Canvas) (x y width height : ℚ) (color : Option Color)
    (isFill : Bool) : Canvas :=
  if isFill then
    let ctx := match color with
      | some col => c.ctx.setFillStyle col
      | none => c.ctx
    { c with ctx := ctx.fillRect x y width height }
  else
    let (x, y) := if c.usePositionFix then (x + 1/2, y + 1/2) else (x, y)
    let ctx := match color with
      | some col => c.ctx.setStrokeStyle col
      | none => c.ctx
    { c with ctx := ctx.strokeRect x y width height }

/-- `drawRoundedRect(x, y, width, height, r, color = null, isFill = true)`.
The path of four quarter arcs is recorded first, from the caller's `x`,
`y`.  In the stroke branch the source then increments the local variables
`x` and `y` by `0.5` when the position fix is enabled, but the path has
already been recorded and the incremented values are never read, so the
increment has no effect on the context. -/
def Canvas.drawRoundedRect (c : Canvas) (x y width height r : ℚ)
    (color : Option Color) (isFill : Bool) : Canvas :=
  let ctx := c.ctx.beginPath
  let ctx := ctx.arc (x + r) (y + r) r 1 (3/2)
  let ctx := ctx.arc (x + width - r) (y + r) r (3/2) 0
  let ctx := ctx.arc (x + width - r) (y + height - r) r 0 (1/2)
  let ctx := ctx.arc (x + r) (y + height - r) r (1/2) 1
  let ctx := ctx.closePath
  if isFill then
    let ctx := match color with
      | some col => ctx.setFillStyle col
      | none => ctx
    { c with ctx := ctx.fill }
  else
    let ctx := match color with
      | some col => ctx.setStrokeStyle col
      | none => ctx
    { c with ctx := ctx.stroke }

/-- `drawCircle(x, y, r, color = null, isFill = true)` -/
def Canvas.drawCircle (c : Canvas) (x y r : ℚ) (color : Option Color)
    (isFill : Bool) : Canvas :=
  let ctx := c.ctx.beginPath
  let ctx := ctx.arc x y r 0 2
  let ctx := ctx.closePath
  if isFill then
    let ctx := match color with
      | some col => ctx.setFillStyle col
      | none => ctx
    { c with ctx := ctx.fill }
  else
    let ctx := match color with
      | some col => ctx.setStrokeStyle col
      | none => ctx
    { c with ctx := ctx.stroke }

/-- The loop `for(let i = 2; i < vertexes.length; i += 2)
{ context.moveTo(vertexes[i], vertexes[i + 1]); }` of `drawPolygon`. -/
def polygonLoop (ctx : Ctx) (vs : List ℚ) (i : ℕ) : Ctx :=
  if h : i < vs.length then
    polygonLoop (ctx.moveToOpt vs[i]? vs[i + 1]?) vs (i + 2)
  else ctx
termination_by vs.length - i
decreasing_by omega

/-- `drawPolygon(vertexes, color = null, isFill = true)` (part_000 variant
only): returns immediately when `vertexes` is null or holds fewer than 2
coordinates; otherwise begins a path, issues `lineTo(vertexes[0],
vertexes[1])`, runs the `moveTo` loop from index 2, closes the path and
fills or strokes it. -/
def Canvas.drawPolygon (c : Canvas) (vertexes : Option (List ℚ))
    (color : Option Color) (isFill : Bool) : Canvas :=
  match vertexes with
  | none => c
  | some vs =>
    if vs.length < 2 then c
    else
      let ctx := c.ctx.beginPath
      let ctx := ctx.lineToOpt vs[0]? vs[1]?
      let ctx := polygonLoop ctx vs 2
      let ctx := ctx.closePath
      if isFill then
        let ctx := match color with
          | some col => ctx.setFillStyle col
          | none => ctx
        { c with ctx := ctx.fill }
      else
        let ctx := match color with
          | some col => ctx.setStrokeStyle col
          | none => ctx
        { c with ctx := ctx.stroke }

/-- `drawText(x, y, text, color = null, isFill = true)`: the position fix
is applied before the fill/stroke branch, so it affects both modes. -/
def Canvas.drawText (c : Canvas) (x y : ℚ) (text : String)
    (color : Option Color) (isFill : Bool) : Canvas :=
  let (x, y) := if c.usePositionFix then (x + 1/2, y + 1/2) else (x, y)
  if isFill then
    let ctx := match color with
      | some col => c.ctx.setFillStyle col
      | none => c.ctx
    { c with ctx := ctx.fillText text x y }
  else
    let ctx := match color with
      | some col => c.ctx.setStrokeStyle col
      | none => c.ctx
    { c with ctx := ctx.strokeText text x y }

/-- `drawFill(color = null)`: re-fills the current path. -/
def Canvas.drawFill (c : Canvas) (color : Option Color) : Canvas :=
  let ctx := match color with
    | some col => c.ctx.setFillStyle col
    | none => c.ctx
  { c with ctx := ctx.fill }

/-- `drawStroke(color = null)`: re-strokes the current path. -/
def Canvas.drawStroke (c : Canvas) (color : Option Color) : Canvas :=
  let ctx := match color with
    | some col => c.ctx.setStrokeStyle col
    | none => c.ctx
  { c with ctx := ctx.stroke }

/-- `clear(color = null)`.  part_000: `clearRect` over the full surface,
then `if (color !== null && color !== 'clear')` set the fill style and
`fillRect` the full surface.  Canvas.js: no `clearRect`; set the fill
style when `color` is non-null, then `fillRect` the full surface. -/
def Canvas.clear (c : Canvas) (color : Option Color) : Canvas :=
  match c.variant with
  | Variant.part000 =>
    let ctx := c.ctx.clearRect 0 0 c.width c.height
    match color with
    | some col =>
      if col = "clear" then { c with ctx := ctx }
      else { c with ctx := (ctx.setFillStyle col).fillRect 0 0 c.width c.height }
    | none => { c with ctx := ctx }
  | Variant.canvasJs =>
    let ctx := match color with
      | some col => c.ctx.setFillStyle col
      | none => c.ctx
    { c with ctx := ctx.fillRect 0 0 c.width c.height }

/-! Spec-side helper definitions used to state the claims. -/

/-- The style a draw call leaves on the context: the supplied color when it
is non-null, the previous style otherwise (the sticky-color rule). -/
def overrideStyle (prev : Option Color) : Option Color → Option Color
  | some col => some col
  | none => prev

/-- The path recorded by `drawRoundedRect`: four quarter arcs then
`closePath`. -/
def roundedRectPath (x y width height r : ℚ) : List PathCmd :=
  [PathCmd.arc (x + r) (y + r) r 1 (3/2),
   PathCmd.arc (x + width - r) (y + r) r (3/2) 0,
   PathCmd.arc (x + width - r) (y + height - r) r 0 (1/2),
   PathCmd.arc (x + r) (y + height - r) r (1/2) 1,
   PathCmd.closePath]

/-- The path recorded by `drawCircle`: a full arc then `closePath`. -/
def circlePath (x y r : ℚ) : List PathCmd :=
  [PathCmd.arc x y r 0 2, PathCmd.closePath]

/-- The commands appended by `polygonLoop` starting at index `i`: one
`moveTo` per in-range coordinate pair, commands with a missing second
coordinate being ignored. -/
def polyCmds (vs : List ℚ) (i : ℕ) : List PathCmd :=
  if _ : i < vs.length then
    (match vs[i]?, vs[i + 1]? with
     | some x, some y => [PathCmd.moveTo x y]
     | _, _ => []) ++ polyCmds vs (i + 2)
  else []
termination_by vs.length - i
decreasing_by omega

/-- The full path recorded by `drawPolygon` on a vertex list with at least
2 coordinates. -/
def polygonPath (vs : List ℚ) : List PathCmd :=
  (match vs[0]?, vs[1]? with
   | some x, some y => [PathCmd.lineTo x y]
   | _, _ => []) ++ polyCmds vs 2 ++ [PathCmd.closePath]

/-- Geometric interpretation of a path whose commands are radius-zero arcs
followed by a single final `closePath`, as the closed polyline through the
arc centres: a radius-zero arc occupies exactly its centre point (its start
point `(cx + r·cos θ, cy + r·sin θ)` and end point both coincide with the
centre when `r = 0`), the context joins consecutive commands by straight
edges, and `closePath` joins the last point back to the first.  Returns
`none` for any other path shape. -/
def degeneratePathOutline : List PathCmd → Option (List (ℚ × ℚ))
  | [PathCmd.closePath] => some []
  | PathCmd.arc cx cy r _ _ :: rest =>
      if r = 0 then (degeneratePathOutline rest).map (fun ps => (cx, cy) :: ps)
      else none
  | _ => none

/-- The wrapper's presentation state together with the surface dimensions:
everything a draw call is not supposed to touch. -/
def Canvas.presentation (c : Canvas) :
    Bool × String × String × List String × ℚ × ℚ :=
  (c.usePositionFix, c.fontFamily, c.fontSize, c.fontDecorations, c.width, c.height)

/-- One draw call (the color argument is supplied separately): the eight
operations named by the sticky-color contract. -/
inductive DrawCall where
  | line (x1 y1 x2 y2 : ℚ)
  | rect (x y width height : ℚ) (isFill : Bool)
  | roundedRect (x y width height r : ℚ) (isFill : Bool)
  | circle (x y r : ℚ) (isFill : Bool)
  | polygon (vertexes : Option (List ℚ)) (isFill : Bool)
  | text (x y : ℚ) (t : String) (isFill : Bool)
  | fillAgain
  | strokeAgain
deriving DecidableEq

/-- Dispatches a `DrawCall` to the corresponding wrapper method. -/
def Canvas.runDrawCall (c : Canvas) (op : DrawCall) (color : Option Color) : Canvas :=
  match op with
  | DrawCall.line x1 y1 x2 y2 => c.drawLine x1 y1 x2 y2 color
  | DrawCall.rect x y w h isFill => c.drawRect x y w h color isFill
  | DrawCall.roundedRect x y w h r isFill => c.drawRoundedRect x y w h r color isFill
  | DrawCall.circle x y r isFill => c.drawCircle x y r color isFill
  | DrawCall.polygon vs isFill => c.drawPolygon vs color isFill
  | DrawCall.text x y t isFill => c.drawText x y t color isFill
  | DrawCall.fillAgain => c.drawFill color
  | DrawCall.strokeAgain => c.drawStroke color

/-- Whether a draw call renders in fill mode (so a supplied color goes to
the fill style) as opposed to stroke/line mode (stroke style). -/
def usesFill : DrawCall → Bool
  | DrawCall.line _ _ _ _ => false
  | DrawCall.rect _ _ _ _ isFill => isFill
  | DrawCall.roundedRect _ _ _ _ _ isFill => isFill
  | DrawCall.circle _ _ _ isFill => isFill
  | DrawCall.polygon _ isFill => isFill
  | DrawCall.text _ _ _ isFill => isFill
  | DrawCall.fillAgain => true
  | DrawCall.strokeAgain => false

/-- Whether a draw call reaches its drawing step: `drawPolygon` returns
early on a null or short vertex list, every other call always draws. -/
def actuallyDraws : DrawCall → Bool
  | DrawCall.polygon none _ => false
  | DrawCall.polygon (some vs) _ => decide (2 ≤ vs.length)
  | _ => true

/-- One call to one of the four font-state mutators. -/
inductive FontCall where
  | family (f : String)
  | size (s : ℚ)
  | decorations (ds : List String)
  | font (f : Option String) (s : Option ℚ) (ds : Option (List String))
deriving DecidableEq

/-- Dispatches a `FontCall` to the corresponding wrapper method. -/
def Canvas.applyFontCall (c : Canvas) : FontCall → Canvas
  | FontCall.family f => c.setFontFamily f
  | FontCall.size s => c.setFontSize s
  | FontCall.decorations ds => c.setFontDecorations ds
  | FontCall.font f s ds => c.setFont f s ds

/-- Runs a sequence of font-state mutator calls in order. -/
def Canvas.applyFontCalls (c : Canvas) (calls : List FontCall) : Canvas :=
  calls.foldl Canvas.applyFontCall c

/-- The three font fields, as pure data. -/
structure FontFields where
  family : String
  size : String
  decorations : List String
deriving DecidableEq

/-- Reference semantics of one font-state mutator call: each call updates
the most recently set value of each of the three fields independently, a
null argument of `setFont` leaving its field unchanged. -/
def fontStep (f : FontFields) : FontCall → FontFields
  | FontCall.family fam => { f with family := fam }
  | FontCall.size s => { f with size := toString s ++ "px" }
  | FontCall.decorations ds => { f with decorations := ds }
  | FontCall.font fam s ds =>
      { family := fam.getD f.family
        size := (s.map fun v => toString v ++ "px").getD f.size
        decorations := ds.getD f.decorations }

/-- The font fields a fresh wrapper starts with. -/
def initialFontFields : FontFields :=
  { family := "sans-serif", size := "10px", decorations := [] }

/-- The wrapper's current font fields. -/
def Canvas.fontFields (c : Canvas) : FontFields :=
  { family := c.fontFamily, size := c.fontSize, decorations := c.fontDecorations }

/-! Helper lemmas. -/

/-- Auxiliary form of `polygonLoop_spec`, by induction on an upper bound of
the number of remaining indices. -/
theorem polygonLoop_spec_aux (vs : List ℚ) :
    ∀ k i ctx, vs.length - i ≤ k →
      polygonLoop ctx vs i = { ctx with path := ctx.path ++ polyCmds vs i } := by
  intro k
  induction k with
  | zero =>
    intro i ctx h
    rw [polygonLoop, polyCmds]
    have hi : ¬ i < vs.length := by omega
    simp [hi]
  | succ k ih =>
    intro i ctx h
    rw [polygonLoop, polyCmds]
    by_cases hi : i < vs.length
    · simp only [dif_pos hi]
      rw [ih (i + 2) _ (by omega)]
      cases hx : vs[i]? <;> cases hy : vs[i + 1]? <;>
        simp [Ctx.moveToOpt, Ctx.moveTo, hx, hy]
    · simp [dif_neg hi]

/-- The `moveTo` loop of `drawPolygon` only appends `polyCmds` to the
current path; every other context field is untouched. -/
theorem polygonLoop_spec (ctx : Ctx) (vs : List ℚ) (i : ℕ) :
    polygonLoop ctx vs i = { ctx with path := ctx.path ++ polyCmds vs i } :=
  polygonLoop_spec_aux vs (vs.length - i) i ctx le_rfl

/-! Claim theorems. -/

/-- C1: the claim says the stroke variant of `drawRoundedRect` strokes the
rounded-rectangle path built from origin `(x + 0.5, y + 0.5)` when
`positionFixEnabled` is true.  The code records the path from `(x, y)`
before it increments the local `x`, `y`, so the increment is dead and the
stroked path is built from `(0, 0)` — not `(0.5, 0.5)` — at the failing
input `drawRoundedRect(0, 0, 10, 10, 2, 'red', false)` with the position
fix enabled. -/
theorem C1_roundedRect_stroke_ignores_position_fix :
    ((Canvas.create 100 100 (some true) Variant.canvasJs).drawRoundedRect
        0 0 10 10 2 (some "red") false).ctx.trace
      = [DrawOp.strokePath (roundedRectPath 0 0 10 10 2) (some "red")]
    ∧ roundedRectPath 0 0 10 10 2 ≠ roundedRectPath (1/2) (1/2) 10 10 2 := by
  constructor
  · rfl
  · norm_num [roundedRectPath]

/-- C2: the claim says `drawPolygon` connects each point to the previous
one.  The loop issues `moveTo`, not `lineTo`, so on
`drawPolygon([0, 0, 100, 0, 50, 50], 'red', true)` the filled path is
`lineTo(0,0); moveTo(100,0); moveTo(50,50); closePath()`: every point
after the first starts a fresh subpath instead of being connected. -/
theorem C2_polygon_loop_moves_instead_of_connecting :
    ((Canvas.create 100 100 none Variant.part000).drawPolygon
        (some [0, 0, 100, 0, 50, 50]) (some "red") true).ctx.trace
      = [DrawOp.fillPath
          [PathCmd.lineTo 0 0, PathCmd.moveTo 100 0, PathCmd.moveTo 50 50,
           PathCmd.closePath] (some "red")]
    ∧ PathCmd.moveTo 100 0 ≠ PathCmd.lineTo 100 0 := by
  refine ⟨?_, by simp⟩
  have h6 : polyCmds [0, 0, 100, 0, 50, 50] 6 = [] := by
    rw [polyCmds]; simp
  have h4 : polyCmds [0, 0, 100, 0, 50, 50] 4 = [PathCmd.moveTo 50 50] := by
    rw [polyCmds]; simp [h6]
  have h2 : polyCmds [0, 0, 100, 0, 50, 50] 2
      = [PathCmd.moveTo 100 0, PathCmd.moveTo 50 50] := by
    rw [polyCmds]; simp [h4]
  rw [Canvas.drawPolygon]
  simp [Canvas.create, Ctx.beginPath, Ctx.lineToOpt, Ctx.lineTo,
    polygonLoop_spec, h2, Ctx.closePath, Ctx.setFillStyle, Ctx.fill]

/-- C6: `drawPolygon` with a null vertex list, or with fewer than 2
coordinates, returns without issuing any context command and leaves the
whole wrapper state (context included) unchanged. -/
theorem C6_polygon_short_vertex_list_is_noop (c : Canvas) (color : Option Color)
    (isFill : Bool) (vs : List ℚ) :
    c.drawPolygon none color isFill = c
    ∧ (vs.length < 2 → c.drawPolygon (some vs) color isFill = c) := by
  refine ⟨rfl, fun h => ?_⟩
  simp [Canvas.drawPolygon, h]

/-- Witness for C6 at the concrete inputs named by the spec: `[]` and
`[5]`. -/
theorem C6_polygon_short_vertex_list_is_noop_witness :
    (([5] : List ℚ).length < 2)
    ∧ (Canvas.create 20 20 none Variant.part000).drawPolygon (some [5])
        (some "red") true = Canvas.create 20 20 none Variant.part000
    ∧ (Canvas.create 20 20 none Variant.part000).drawPolygon (some [])
        (some "red") true = Canvas.create 20 20 none Variant.part000 :=
  ⟨by decide,
   (C6_polygon_short_vertex_list_is_noop _ _ _ [5]).2 (by decide),
   (C6_polygon_short_vertex_list_is_noop _ _ _ []).2 (by decide)⟩

/-- C8: `drawRoundedRect` at `r = 0` (stroke mode) records exactly the
four radius-zero arcs centred at the rectangle corners followed by
`closePath`, and under the canvas arc semantics each radius-zero arc
collapses to its centre, so the closed outline traced is the axis-aligned
rectangle with corners `(x, y)`, `(x+width, y)`, `(x+width, y+height)`,
`(x, y+height)`. -/
theorem C8_roundedRect_radius_zero_degenerates_to_rectangle (c : Canvas)
    (x y width height : ℚ) (color : Option Color) :
    (c.drawRoundedRect x y width height 0 color false).ctx.trace
      = c.ctx.trace ++ [DrawOp.strokePath (roundedRectPath x y width height 0)
          (overrideStyle c.ctx.strokeStyle color)]
    ∧ degeneratePathOutline (roundedRectPath x y width height 0)
      = some [(x, y), (x + width, y), (x + width, y + height), (x, y + height)] := by
  constructor
  · cases color <;>
      simp [Canvas.drawRoundedRect, Ctx.beginPath, Ctx.arc, Ctx.closePath,
        Ctx.stroke, Ctx.setStrokeStyle, overrideStyle, roundedRectPath]
  · simp [degeneratePathOutline, roundedRectPath]

/-- Effect of a single font-state call: the wrapper's font fields step by
`fontStep`, the composed font string of the stepped fields is written to
the context, and the variant is unchanged. -/
theorem applyFontCall_spec (c : Canvas) (call : FontCall) :
    (c.applyFontCall call).fontFields = fontStep c.fontFields call
    ∧ (c.applyFontCall call).ctx.font
        = some (composeFontString c.variant
            (fontStep c.fontFields call).decorations
            (fontStep c.fontFields call).size
            (fontStep c.fontFields call).family)
    ∧ (c.applyFontCall call).variant = c.variant := by
  cases call with
  | family f =>
    simp [Canvas.applyFontCall, Canvas.setFontFamily, Canvas.refreshFont,
      fontStep, Canvas.fontFields]
  | size s =>
    simp [Canvas.applyFontCall, Canvas.setFontSize, Canvas.refreshFont,
      fontStep, Canvas.fontFields]
  | decorations ds =>
    simp [Canvas.applyFontCall, Canvas.setFontDecorations, Canvas.refreshFont,
      fontStep, Canvas.fontFields]
  | font f s ds =>
    cases f <;> cases s <;> cases ds <;>
      simp [Canvas.applyFontCall, Canvas.setFont, Canvas.refreshFont,
        fontStep, Canvas.fontFields]

/-- Effect of a nonempty sequence of font-state calls: the font fields are
the fold of `fontStep`, the context font is the composed string of the
folded fields, and the variant is unchanged. -/
theorem applyFontCalls_spec (calls : List FontCall) :
    ∀ c : Canvas, calls ≠ [] →
      (c.applyFontCalls calls).fontFields = calls.foldl fontStep c.fontFields
      ∧ (c.applyFontCalls calls).ctx.font
          = some (composeFontString c.variant
              (calls.foldl fontStep c.fontFields).decorations
              (calls.foldl fontStep c.fontFields).size
              (calls.foldl fontStep c.fontFields).family)
      ∧ (c.applyFontCalls calls).variant = c.variant := by
  induction calls with
  | nil => intro c h; exact absurd rfl h
  | cons call rest ih =>
    intro c _
    by_cases hr : rest = []
    · subst hr
      simpa [Canvas.applyFontCalls] using applyFontCall_spec c call
    · obtain ⟨hf1, -, hv1⟩ := applyFontCall_spec c call
      obtain ⟨hf2, hfont2, hv2⟩ := ih (c.applyFontCall call) hr
      have hrun : Canvas.applyFontCalls c (call :: rest)
          = Canvas.applyFontCalls (c.applyFontCall call) rest := rfl
      rw [hrun, List.foldl_cons]
      exact ⟨by rw [hf2, hf1], by rw [hfont2, hf1, hv1], by rw [hv2, hv1]⟩

/-- C3: after any nonempty sequence of `setFontFamily` / `setFontSize` /
`setFontDecorations` / `setFont` calls on a freshly constructed wrapper,
the font string written to the drawing context is the composition
`<decorations joined by a single space> <size>px <family>` (family in
double quotes in the Canvas.js variant) built from the most recently set
value of each of the three fields independently — `fontStep` updates only
the fields a call supplies, a null `setFont` argument leaving its field's
previous value in place. -/
theorem C3_composed_font_string (variant : Variant) (w h : ℚ)
    (opt : Option Bool) (calls : List FontCall) (hne : calls ≠ []) :
    ((Canvas.create w h opt variant).applyFontCalls calls).ctx.font
      = some (composeFontString variant
          (calls.foldl fontStep initialFontFields).decorations
          (calls.foldl fontStep initialFontFields).size
          (calls.foldl fontStep initialFontFields).family)
    ∧ ((Canvas.create w h opt variant).applyFontCalls calls).fontFields
      = calls.foldl fontStep initialFontFields := by
  obtain ⟨hf, hfont, -⟩ := applyFontCalls_spec calls (Canvas.create w h opt variant) hne
  have hff : (Canvas.create w h opt variant).fontFields = initialFontFields := rfl
  have hv : (Canvas.create w h opt variant).variant = variant := rfl
  rw [hff] at hf hfont
  rw [hv] at hfont
  exact ⟨hfont, hf⟩

/-- Witness for C3: `setFontFamily('serif')` then `setFont(null, 20,
null)` on a fresh Canvas.js-variant wrapper. -/
theorem C3_composed_font_string_witness :
    ((Canvas.create 10 10 none Variant.canvasJs).applyFontCalls
        [FontCall.family "serif", FontCall.font none (some 20) none]).ctx.font
      = some (composeFontString Variant.canvasJs
          (([FontCall.family "serif",
             FontCall.font none (some 20) none]).foldl fontStep
              initialFontFields).decorations
          (([FontCall.family "serif",
             FontCall.font none (some 20) none]).foldl fontStep
              initialFontFields).size
          (([FontCall.family "serif",
             FontCall.font none (some 20) none]).foldl fontStep
              initialFontFields).family) :=
  (C3_composed_font_string Variant.canvasJs 10 10 none
    [FontCall.family "serif", FontCall.font none (some 20) none]
    (List.cons_ne_nil _ _)).1

/-- `lineToOpt` as a single structure update. -/
theorem lineToOpt_eq (c : Ctx) (x y : Option ℚ) :
    c.lineToOpt x y = { c with path := c.path ++ (match x, y with
      | some a, some b => [PathCmd.lineTo a b]
      | _, _ => []) } := by
  cases x <;> cases y <;> simp [Ctx.lineToOpt, Ctx.lineTo]

/-- C5: every draw operation called with a null color leaves both sticky
context colors unchanged, and — whenever the call reaches its drawing step
— a non-null color sets exactly the relevant style (fill style in fill
mode, stroke style in stroke/line mode) and leaves the other unchanged. -/
theorem C5_sticky_color_contract (c : Canvas) (op : DrawCall) (s : Color) :
    (c.runDrawCall op none).ctx.fillStyle = c.ctx.fillStyle
    ∧ (c.runDrawCall op none).ctx.strokeStyle = c.ctx.strokeStyle
    ∧ (actuallyDraws op = true →
        (usesFill op = true →
          (c.runDrawCall op (some s)).ctx.fillStyle = some s
          ∧ (c.runDrawCall op (some s)).ctx.strokeStyle = c.ctx.strokeStyle)
        ∧ (usesFill op = false →
          (c.runDrawCall op (some s)).ctx.strokeStyle = some s
          ∧ (c.runDrawCall op (some s)).ctx.fillStyle = c.ctx.fillStyle)) := by
  cases op with
  | line x1 y1 x2 y2 =>
    cases hc : c.usePositionFix <;>
      simp [Canvas.runDrawCall, Canvas.drawLine, hc, Ctx.setStrokeStyle,
        Ctx.beginPath, Ctx.moveTo, Ctx.lineTo, Ctx.stroke, usesFill, actuallyDraws]
  | rect x y w h isFill =>
    cases isFill <;> cases hc : c.usePositionFix <;>
      simp [Canvas.runDrawCall, Canvas.drawRect, hc, Ctx.setFillStyle,
        Ctx.setStrokeStyle, Ctx.fillRect, Ctx.strokeRect, usesFill, actuallyDraws]
  | roundedRect x y w h r isFill =>
    cases isFill <;>
      simp [Canvas.runDrawCall, Canvas.drawRoundedRect, Ctx.setFillStyle,
        Ctx.setStrokeStyle, Ctx.beginPath, Ctx.arc, Ctx.closePath, Ctx.fill,
        Ctx.stroke, usesFill, actuallyDraws]
  | circle x y r isFill =>
    cases isFill <;>
      simp [Canvas.runDrawCall, Canvas.drawCircle, Ctx.setFillStyle,
        Ctx.setStrokeStyle, Ctx.beginPath, Ctx.arc, Ctx.closePath, Ctx.fill,
        Ctx.stroke, usesFill, actuallyDraws]
  | polygon vs isFill =>
    cases vs with
    | none =>
      cases isFill <;>
        simp [Canvas.runDrawCall, Canvas.drawPolygon, usesFill, actuallyDraws]
    | some l =>
      by_cases hl : l.length < 2
      · have h2 : ¬ 2 ≤ l.length := by omega
        cases isFill <;>
          simp [Canvas.runDrawCall, Canvas.drawPolygon, hl, h2, usesFill,
            actuallyDraws]
      · cases isFill <;>
          simp [Canvas.runDrawCall, Canvas.drawPolygon, hl, usesFill,
            actuallyDraws, Ctx.beginPath, lineToOpt_eq, polygonLoop_spec,
            Ctx.closePath, Ctx.setFillStyle, Ctx.setStrokeStyle, Ctx.fill,
            Ctx.stroke]
  | text x y t isFill =>
    cases isFill <;> cases hc : c.usePositionFix <;>
      simp [Canvas.runDrawCall, Canvas.drawText, hc, Ctx.setFillStyle,
        Ctx.setStrokeStyle, Ctx.fillText, Ctx.strokeText, usesFill, actuallyDraws]
  | fillAgain =>
    simp [Canvas.runDrawCall, Canvas.drawFill, Ctx.setFillStyle, Ctx.fill,
      usesFill, actuallyDraws]
  | strokeAgain =>
    simp [Canvas.runDrawCall, Canvas.drawStroke, Ctx.setStrokeStyle, Ctx.stroke,
      usesFill, actuallyDraws]

/-- Witness for C5 at a concrete input with a reachable drawing step:
`drawRect(1, 2, 3, 4, 'red', true)` on a fresh wrapper. -/
theorem C5_sticky_color_contract_witness :
    (actuallyDraws (DrawCall.rect 1 2 3 4 true) = true)
    ∧ (((Canvas.create 20 20 none Variant.canvasJs).runDrawCall
          (DrawCall.rect 1 2 3 4 true) (some "red")).ctx.fillStyle = some "red"
        ∧ ((Canvas.create 20 20 none Variant.canvasJs).runDrawCall
          (DrawCall.rect 1 2 3 4 true) (some "red")).ctx.strokeStyle
          = (Canvas.create 20 20 none Variant.canvasJs).ctx.strokeStyle) :=
  ⟨rfl,
   ((C5_sticky_color_contract (Canvas.create 20 20 none Variant.canvasJs)
      (DrawCall.rect 1 2 3 4 true) "red").2.2 rfl).1 rfl⟩

/-- C9: every draw operation, `clear` included, leaves the wrapper's
presentation state — position-fix flag, font family, size, decorations,
and the surface's width and height — unchanged. -/
theorem C9_draw_operations_preserve_presentation (c : Canvas) (op : DrawCall)
    (color : Option Color) :
    (c.runDrawCall op color).presentation = c.presentation
    ∧ (c.clear color).presentation = c.presentation := by
  constructor
  · cases op with
    | line x1 y1 x2 y2 =>
      cases hc : c.usePositionFix <;> cases color <;>
        simp [Canvas.runDrawCall, Canvas.drawLine, hc, Canvas.presentation]
    | rect x y w h isFill =>
      cases isFill <;> cases hc : c.usePositionFix <;> cases color <;>
        simp [Canvas.runDrawCall, Canvas.drawRect, hc, Canvas.presentation]
    | roundedRect x y w h r isFill =>
      cases isFill <;> cases color <;>
        simp [Canvas.runDrawCall, Canvas.drawRoundedRect, Canvas.presentation]
    | circle x y r isFill =>
      cases isFill <;> cases color <;>
        simp [Canvas.runDrawCall, Canvas.drawCircle, Canvas.presentation]
    | polygon vs isFill =>
      cases vs with
      | none => simp [Canvas.runDrawCall, Canvas.drawPolygon]
      | some l =>
        by_cases hl : l.length < 2
        · simp [Canvas.runDrawCall, Canvas.drawPolygon, hl]
        · cases isFill <;> cases color <;>
            simp [Canvas.runDrawCall, Canvas.drawPolygon, hl, Canvas.presentation]
    | text x y t isFill =>
      cases isFill <;> cases hc : c.usePositionFix <;> cases color <;>
        simp [Canvas.runDrawCall, Canvas.drawText, hc, Canvas.presentation]
    | fillAgain =>
      cases color <;> simp [Canvas.runDrawCall, Canvas.drawFill, Canvas.presentation]
    | strokeAgain =>
      cases color <;> simp [Canvas.runDrawCall, Canvas.drawStroke, Canvas.presentation]
  · cases hv : c.variant with
    | part000 =>
      cases color with
      | none => simp [Canvas.clear, hv, Canvas.presentation]
      | some col =>
        by_cases hcl : col = "clear" <;>
          simp [Canvas.clear, hv, hcl, Canvas.presentation]
    | canvasJs =>
      cases color <;> simp [Canvas.clear, hv, Canvas.presentation]

/-- C4 counterexample: the claim says fill-mode draws never receive a 0.5
offset, for drawText among others.  `drawText` applies the position fix
before branching on `isFill`, so with the fix enabled (the default)
`drawText(0, 0, 't', 'red', true)` passes `(0 + 0.5, 0 + 0.5)` — not the
caller's `(0, 0)` — to `fillText`. -/
theorem C4_fill_text_is_position_fixed :
    ((Canvas.create 100 100 none Variant.canvasJs).drawText 0 0 "t"
        (some "red") true).ctx.trace
      = [DrawOp.fillText "t" (0 + 1/2) (0 + 1/2) (some "red")]
    ∧ ((0 : ℚ) + 1/2 ≠ 0) := by
  constructor
  · rfl
  · norm_num

/-- C4 as amended: for `drawRect`, `drawRoundedRect`, `drawCircle` and
`drawPolygon` in fill mode the coordinates reaching the fill primitive are
exactly the caller's, for every value of the position-fix flag; `drawText`
alone applies the 0.5 offset in fill mode too, exactly when the
position-fix flag is enabled. -/
theorem C4_amended_fill_mode_coordinates (c : Canvas) (x y w h r : ℚ)
    (t : String) (color : Option Color) (vs : List ℚ) (hvs : 2 ≤ vs.length) :
    (c.drawRect x y w h color true).ctx.trace
      = c.ctx.trace ++ [DrawOp.fillRect x y w h (overrideStyle c.ctx.fillStyle color)]
    ∧ (c.drawRoundedRect x y w h r color true).ctx.trace
      = c.ctx.trace ++ [DrawOp.fillPath (roundedRectPath x y w h r)
          (overrideStyle c.ctx.fillStyle color)]
    ∧ (c.drawCircle x y r color true).ctx.trace
      = c.ctx.trace ++ [DrawOp.fillPath (circlePath x y r)
          (overrideStyle c.ctx.fillStyle color)]
    ∧ (c.drawPolygon (some vs) color true).ctx.trace
      = c.ctx.trace ++ [DrawOp.fillPath (polygonPath vs)
          (overrideStyle c.ctx.fillStyle color)]
    ∧ (c.drawText x y t color true).ctx.trace
      = c.ctx.trace ++ [DrawOp.fillText t
          (if c.usePositionFix then x + 1/2 else x)
          (if c.usePositionFix then y + 1/2 else y)
          (overrideStyle c.ctx.fillStyle color)] := by
  have hl : ¬ vs.length < 2 := by omega
  refine ⟨?_, ?_, ?_, ?_, ?_⟩
  · cases color <;>
      simp [Canvas.drawRect, Ctx.setFillStyle, Ctx.fillRect, overrideStyle]
  · cases color <;>
      simp [Canvas.drawRoundedRect, Ctx.beginPath, Ctx.arc, Ctx.closePath,
        Ctx.setFillStyle, Ctx.fill, overrideStyle, roundedRectPath]
  · cases color <;>
      simp [Canvas.drawCircle, Ctx.beginPath, Ctx.arc, Ctx.closePath,
        Ctx.setFillStyle, Ctx.fill, overrideStyle, circlePath]
  · cases color <;>
      simp [Canvas.drawPolygon, hl, Ctx.beginPath, lineToOpt_eq,
        polygonLoop_spec, Ctx.closePath, Ctx.setFillStyle, Ctx.fill,
        overrideStyle, polygonPath]
  · cases hc : c.usePositionFix <;> cases color <;>
      simp [Canvas.drawText, hc, Ctx.setFillStyle, Ctx.fillText, overrideStyle]

/-- Witness for C4 as amended: `drawRect(1, 2, 3, 4, 'red', true)` and the
polygon `[0, 0, 4, 4]` on a fresh wrapper. -/
theorem C4_amended_fill_mode_coordinates_witness :
    (2 ≤ (([0, 0, 4, 4] : List ℚ)).length)
    ∧ ((Canvas.create 20 20 none Variant.canvasJs).drawRect 1 2 3 4
        (some "red") true).ctx.trace
      = (Canvas.create 20 20 none Variant.canvasJs).ctx.trace
        ++ [DrawOp.fillRect 1 2 3 4
            (overrideStyle (Canvas.create 20 20 none Variant.canvasJs).ctx.fillStyle
              (some "red"))] :=
  ⟨by decide,
   (C4_amended_fill_mode_coordinates (Canvas.create 20 20 none Variant.canvasJs)
      1 2 3 4 0 "t" (some "red") [0, 0, 4, 4] (by decide)).1⟩

/-- C7: `clear` per variant.  part_000 first clears the full surface to
transparent (`clearRect`) and fills the surface with the color exactly
when it is neither null nor the literal `'clear'` (setting the fill style
to it); Canvas.js performs no transparent clear and fills the full surface
with the supplied color, or with the previously set fill color when the
color is null. -/
theorem C7_clear_variant_semantics (c : Canvas) (s : Color) :
    (c.variant = Variant.part000 →
      (c.clear none).ctx.trace
        = c.ctx.trace ++ [DrawOp.clearRect 0 0 c.width c.height]
      ∧ (c.clear none).ctx.fillStyle = c.ctx.fillStyle
      ∧ (c.clear (some "clear")).ctx.trace
        = c.ctx.trace ++ [DrawOp.clearRect 0 0 c.width c.height]
      ∧ (c.clear (some "clear")).ctx.fillStyle = c.ctx.fillStyle
      ∧ (s ≠ "clear" →
          (c.clear (some s)).ctx.trace
            = c.ctx.trace ++ [DrawOp.clearRect 0 0 c.width c.height,
                DrawOp.fillRect 0 0 c.width c.height (some s)]
          ∧ (c.clear (some s)).ctx.fillStyle = some s))
    ∧ (c.variant = Variant.canvasJs →
      (c.clear (some s)).ctx.trace
        = c.ctx.trace ++ [DrawOp.fillRect 0 0 c.width c.height (some s)]
      ∧ (c.clear none).ctx.trace
        = c.ctx.trace ++ [DrawOp.fillRect 0 0 c.width c.height c.ctx.fillStyle]) := by
  constructor
  · intro hv
    refine ⟨?_, ?_, ?_, ?_, fun hs => ?_⟩
    · simp [Canvas.clear, hv, Ctx.clearRect]
    · simp [Canvas.clear, hv, Ctx.clearRect]
    · simp [Canvas.clear, hv, Ctx.clearRect]
    · simp [Canvas.clear, hv, Ctx.clearRect]
    · constructor <;>
        simp [Canvas.clear, hv, hs, Ctx.clearRect, Ctx.setFillStyle, Ctx.fillRect]
  · intro hv
    constructor <;>
      simp [Canvas.clear, hv, Ctx.setFillStyle, Ctx.fillRect]

/-- Witness for C7: `clear('red')` on a fresh 30×40 part_000 wrapper and a
fresh 30×40 Canvas.js wrapper. -/
theorem C7_clear_variant_semantics_witness :
    (((Canvas.create 30 40 none Variant.part000).clear (some "red")).ctx.trace
      = (Canvas.create 30 40 none Variant.part000).ctx.trace
        ++ [DrawOp.clearRect 0 0 (Canvas.create 30 40 none Variant.part000).width
              (Canvas.create 30 40 none Variant.part000).height,
            DrawOp.fillRect 0 0 (Canvas.create 30 40 none Variant.part000).width
              (Canvas.create 30 40 none Variant.part000).height (some "red")])
    ∧ (((Canvas.create 30 40 none Variant.canvasJs).clear (some "red")).ctx.trace
      = (Canvas.create 30 40 none Variant.canvasJs).ctx.trace
        ++ [DrawOp.fillRect 0 0 (Canvas.create 30 40 none Variant.canvasJs).width
              (Canvas.create 30 40 none Variant.canvasJs).height (some "red")]) :=
  ⟨(((C7_clear_variant_semantics (Canvas.create 30 40 none Variant.part000)
      "red").1 rfl).2.2.2.2 (by decide)).1,
   ((C7_clear_variant_semantics (Canvas.create 30 40 none Variant.canvasJs)
      "red").2 rfl).1⟩

/-- C10: `clear` with a non-null color (not the literal `'clear'` in the
part_000 variant) durably sets the context's sticky fill style to that
color, so a subsequent fill-mode draw with a null color — here
`drawRect(x, y, w, h, null, true)` — fills using the color last passed to
`clear`. -/
theorem C10_clear_color_is_sticky (c : Canvas) (s : Color) (x y w h : ℚ) :
    (c.variant = Variant.part000 → s ≠ "clear" →
      (c.clear (some s)).ctx.fillStyle = some s
      ∧ ((c.clear (some s)).drawRect x y w h none true).ctx.trace
        = (c.clear (some s)).ctx.trace ++ [DrawOp.fillRect x y w h (some s)])
    ∧ (c.variant = Variant.canvasJs →
      (c.clear (some s)).ctx.fillStyle = some s
      ∧ ((c.clear (some s)).drawRect x y w h none true).ctx.trace
        = (c.clear (some s)).ctx.trace ++ [DrawOp.fillRect x y w h (some s)]) := by
  constructor
  · intro hv hs
    constructor <;>
      simp [Canvas.clear, hv, hs, Ctx.clearRect, Ctx.setFillStyle, Ctx.fillRect,
        Canvas.drawRect]
  · intro hv
    constructor <;>
      simp [Canvas.clear, hv, Ctx.setFillStyle, Ctx.fillRect, Canvas.drawRect]

/-- Witness for C10: `clear('blue')` then `drawRect(1, 1, 2, 2, null,
true)` on a fresh part_000 wrapper. -/
theorem C10_clear_color_is_sticky_witness :
    (((Canvas.create 30 40 none Variant.part000).clear (some "blue")).ctx.fillStyle
        = some "blue")
    ∧ ((((Canvas.create 30 40 none Variant.part000).clear (some "blue")).drawRect
          1 1 2 2 none true).ctx.trace
        = ((Canvas.create 30 40 none Variant.part000).clear (some "blue")).ctx.trace
          ++ [DrawOp.fillRect 1 1 2 2 (some "blue")]) :=
  (C10_clear_color_is_sticky (Canvas.create 30 40 none Variant.part000)
    "blue" 1 1 2 2).1 rfl (by decide)

end CanvasLib
